import Mathlib

/-!
Shallow embedding of the calibration raster encoder
(`src/main/resources/generate_calibration_bmp.py`).

The script synthesizes an 800x480 test pattern of 6 color boxes (2 rows x
3 columns) and serializes it as an uncompressed 24-bit bottom-up BMP file.
We embed:

- the module constants `WIDTH`, `HEIGHT`, `PALETTE`, `COLOR_INDICES`;
- the box geometry (`box_width`, `box_height`, `cellOf`);
- the in-memory top-down pixel byte buffer `temp_buffer`, built by folding
  the per-cell fill loop `fillBox` over `enumerate(COLOR_INDICES)`;
- the bottom-up, row-padded payload buffer `pixels`;
- the serialized file `create_calibration_bmp` (header bytes followed by
  the payload), modelled as a byte length plus a byte-at-offset function;
- a standard BMP reader `decodePixel` used for round-trip statements;
- the `__main__` argv handling `output_file`.

The geometry and serialization definitions are parameterized by the canvas
size and the color index list, exactly where the script reads the module
constants `WIDTH`, `HEIGHT` and `COLOR_INDICES`; the concrete run of the
script is each definition applied to those constants.
-/

namespace CalibrationBmp

/-- `WIDTH = 800` (display width, line 11 of the script). -/
def WIDTH : Nat := 800

/-- `HEIGHT = 480` (display height, line 12 of the script). -/
def HEIGHT : Nat := 480

/-- The theoretical E6 palette: index 4 is reserved (unused). Each entry is
an (R, G, B) triple of bytes. -/
def PALETTE : List (Nat × Nat × Nat) :=
  [(0, 0, 0),        -- 0: Black
   (255, 255, 255),  -- 1: White
   (255, 255, 0),    -- 2: Yellow
   (255, 0, 0),      -- 3: Red
   (0, 0, 0),        -- 4: Reserved (unused)
   (0, 0, 255),      -- 5: Blue
   (0, 255, 0)]      -- 6: Green

/-- Color indices to use (the script skips reserved color 4). -/
def COLOR_INDICES : List Nat := [0, 1, 2, 3, 5, 6]

/-- `box_width = WIDTH // 3`. -/
def box_width (W : Nat) : Nat := W / 3

/-- `box_height = HEIGHT // 2`. -/
def box_height (H : Nat) : Nat := H / 2

/-- `row_size = WIDTH * 3` (bytes per unpadded pixel row). -/
def row_size (W : Nat) : Nat := W * 3

/-- `padding_bytes = (4 - (row_size % 4)) % 4`. -/
def padding_bytes (W : Nat) : Nat := (4 - row_size W % 4) % 4

/-- Bytes per padded row, `row_size + padding_bytes`. -/
def padded_row_size (W : Nat) : Nat := row_size W + padding_bytes W

/-- `pixel_data_size = (row_size + padding_bytes) * HEIGHT`. -/
def pixel_data_size (W H : Nat) : Nat := padded_row_size W * H

/-- `file_size = 14 + 40 + pixel_data_size` (line 89 of the script). -/
def file_size (W H : Nat) : Nat := 14 + 40 + pixel_data_size W H

/-- One rectangular color box with inclusive-exclusive pixel bounds
`[x_start, x_end) x [y_start, y_end)`. -/
structure Cell where
  x_start : Nat
  y_start : Nat
  x_end : Nat
  y_end : Nat
deriving DecidableEq

/-- The cell for loop iteration `idx`: `row = idx // 3`, `col = idx % 3`,
`x_start = col * box_width`, `y_start = row * box_height`, and the end
bounds forced to the canvas edge for the last column (`col = 2`) and last
row (`row = 1`), exactly as lines 47-55 of the script. -/
def cellOf (W H : Nat) (idx : Nat) : Cell :=
  { x_start := idx % 3 * box_width W
    y_start := idx / 3 * box_height H
    x_end := if idx % 3 < 2 then (idx % 3 + 1) * box_width W else W
    y_end := if idx / 3 < 1 then (idx / 3 + 1) * box_height H else H }

/-- Whether pixel `(x, y)` lies in the bounds of cell `c` — the condition
under which the nested fill loops of lines 60-61 write the pixel. -/
def inCell (c : Cell) (x y : Nat) : Bool :=
  decide (c.x_start ≤ x) && decide (x < c.x_end) &&
    decide (c.y_start ≤ y) && decide (y < c.y_end)

/-- Net effect of one box-fill loop (lines 60-65 of the script) on the
byte buffer: every byte offset `(y * W + x) * 3 + ch` with `(x, y)` in the
cell is overwritten, channel 0 with the Blue value, channel 1 with Green,
channel 2 with Red (`rgb` is the (R, G, B) palette triple); every other
byte keeps its previous value. The offset is decoded back to
`(x, y, ch)` by division, inverting `pixel_offset = (y * WIDTH + x) * 3`. -/
def fillBox (W : Nat) (c : Cell) (rgb : Nat × Nat × Nat) (buf : Nat → Nat) : Nat → Nat :=
  fun i =>
    if inCell c (i / 3 % W) (i / 3 / W) = true then
      if i % 3 = 0 then rgb.2.2
      else if i % 3 = 1 then rgb.2.1
      else rgb.1
    else buf i

/-- The top-down image buffer (`temp_buffer`, zero-initialized at line 43),
after the fill loop `for idx, color_idx in enumerate(COLOR_INDICES)` has
drawn every box (lines 46-65). Modelled as a byte-at-offset function. -/
def temp_buffer (W H : Nat) (ci : List Nat) : Nat → Nat :=
  ci.enum.foldl
    (fun buf p => fillBox W (cellOf W H p.1) (PALETTE.getD p.2 (0, 0, 0)) buf)
    (fun _ => 0)

/-- The bottom-up padded payload buffer (`pixels`, lines 68-81): byte `i`
of the payload belongs to file row `i / padded_row_size` at in-row offset
`i % padded_row_size`; the first `row_size` bytes of file row `bmp_row`
are copied verbatim from logical row `HEIGHT - 1 - bmp_row` of
`temp_buffer` (`src_offset = y * WIDTH * 3` with `bmp_row = HEIGHT-1-y`),
and the remaining `padding_bytes` bytes stay zero. -/
def pixels (W H : Nat) (ci : List Nat) : Nat → Nat :=
  fun i =>
    if i < pixel_data_size W H then
      if i % padded_row_size W < row_size W then
        temp_buffer W H ci ((H - 1 - i / padded_row_size W) * (W * 3) + i % padded_row_size W)
      else 0
    else 0

/-- Little-endian bytes of `struct.pack("<H", v)`. -/
def u16le (v : Nat) : List Nat := [v % 256, v / 256 % 256]

/-- Little-endian bytes of `struct.pack("<I", v)`. -/
def u32le (v : Nat) : List Nat :=
  [v % 256, v / 256 % 256, v / 65536 % 256, v / 16777216 % 256]

/-- Little-endian bytes of `struct.pack("<i", v)`: the two's-complement
residue of `v` modulo `2^32`, little-endian. -/
def i32le (v : Int) : List Nat := u32le (v % 4294967296).toNat

/-- The 54 header bytes written at lines 84-106: the 14-byte BMP file
header (signature "BM" = bytes 66, 77; file size; reserved; payload
offset 54) followed by the 40-byte BITMAPINFOHEADER. -/
def bmpHeader (W H : Nat) : List Nat :=
  [66, 77]
    ++ (u32le (file_size W H)
    ++ (u16le 0 ++ (u16le 0
    ++ (u32le (14 + 40)
    ++ (u32le 40
    ++ (i32le (W : Int) ++ (i32le (H : Int)
    ++ (u16le 1 ++ (u16le 24
    ++ (u32le 0
    ++ (u32le (pixel_data_size W H)
    ++ (i32le 2835 ++ (i32le 2835
    ++ (u32le 0 ++ u32le 0))))))))))))))

/-- The contents of the written output file: a byte length and a
byte-at-offset function (reads past the end return 0). -/
structure ByteFile where
  size : Nat
  byte : Nat → Nat

/-- The complete file written by `create_calibration_bmp`: the header
bytes followed by the `pixels` payload (whose bytearray length is
`pixel_data_size`). -/
def create_calibration_bmp (W H : Nat) (ci : List Nat) : ByteFile :=
  { size := (bmpHeader W H).length + pixel_data_size W H
    byte := fun i =>
      if i < (bmpHeader W H).length then (bmpHeader W H).getD i 0
      else pixels W H ci (i - (bmpHeader W H).length) }

/-- Read a 4-byte little-endian unsigned integer at offset `pos`. -/
def readU32 (f : ByteFile) (pos : Nat) : Nat :=
  f.byte pos + 256 * f.byte (pos + 1) + 65536 * f.byte (pos + 2) +
    16777216 * f.byte (pos + 3)

/-- A standard BMP reader for the files this script produces: it reads the
payload offset, width and height from the header, locates top-down pixel
`(x, y)` in the bottom-up, 4-byte-aligned payload, and returns its
(R, G, B) triple (the file stores B, G, R). -/
def decodePixel (f : ByteFile) (x y : Nat) : Nat × Nat × Nat :=
  (f.byte (readU32 f 10 + (readU32 f 22 - 1 - y) *
      (readU32 f 18 * 3 + (4 - readU32 f 18 * 3 % 4) % 4) + x * 3 + 2),
   f.byte (readU32 f 10 + (readU32 f 22 - 1 - y) *
      (readU32 f 18 * 3 + (4 - readU32 f 18 * 3 % 4) % 4) + x * 3 + 1),
   f.byte (readU32 f 10 + (readU32 f 22 - 1 - y) *
      (readU32 f 18 * 3 + (4 - readU32 f 18 * 3 % 4) % 4) + x * 3))

/-- How many fill iterations write pixel `(x, y)`: the number of loop
indices `idx < n` (with `n` the length of `COLOR_INDICES`) whose cell
contains `(x, y)`. Each such iteration writes the pixel's 3 bytes once. -/
def writeCount (W H n x y : Nat) : Nat :=
  (List.range n).countP fun idx => inCell (cellOf W H idx) x y

/-- The `__main__` argv handling (line 118 of the script):
`sys.argv[1] if len(sys.argv) > 1 else "calibration.bmp"`. -/
def output_file (argv : List String) : String :=
  if 1 < argv.length then argv.getD 1 "calibration.bmp" else "calibration.bmp"

theorem bmpHeader_length (W H : Nat) : (bmpHeader W H).length = 54 := rfl

theorem create_size_eq (W H : Nat) (ci : List Nat) :
    (create_calibration_bmp W H ci).size = 54 + pixel_data_size W H := rfl

/-- C1: in the concrete run (canvas 800x480, colors black, white, yellow,
red, blue, green) the six cells form a 2x3 grid: the interior cells
(indices 0, 1 in the top row and 3, 4 in the bottom row) are 266x240
pixels, the last-column cells (indices 2 and 5) are 268 pixels wide, the
last-row cells are 240 pixels tall; the output file is exactly 1,152,054
bytes (and declares that size in its header); and decoding the file with a
standard BMP reader yields black at (0,0), yellow at (799,0), red at
(0,479) and green at (799,479). -/
theorem C1_concrete_scenario :
    box_width WIDTH = 266 ∧ box_height HEIGHT = 240
    ∧ cellOf WIDTH HEIGHT 0 = ⟨0, 0, 266, 240⟩
    ∧ cellOf WIDTH HEIGHT 1 = ⟨266, 0, 532, 240⟩
    ∧ cellOf WIDTH HEIGHT 2 = ⟨532, 0, 800, 240⟩
    ∧ cellOf WIDTH HEIGHT 3 = ⟨0, 240, 266, 480⟩
    ∧ cellOf WIDTH HEIGHT 4 = ⟨266, 240, 532, 480⟩
    ∧ cellOf WIDTH HEIGHT 5 = ⟨532, 240, 800, 480⟩
    ∧ (cellOf WIDTH HEIGHT 2).x_end - (cellOf WIDTH HEIGHT 2).x_start = 268
    ∧ (cellOf WIDTH HEIGHT 5).x_end - (cellOf WIDTH HEIGHT 5).x_start = 268
    ∧ (cellOf WIDTH HEIGHT 3).y_end - (cellOf WIDTH HEIGHT 3).y_start = 240
    ∧ (create_calibration_bmp WIDTH HEIGHT COLOR_INDICES).size = 1152054
    ∧ readU32 (create_calibration_bmp WIDTH HEIGHT COLOR_INDICES) 2 = 1152054
    ∧ decodePixel (create_calibration_bmp WIDTH HEIGHT COLOR_INDICES) 0 0 = (0, 0, 0)
    ∧ decodePixel (create_calibration_bmp WIDTH HEIGHT COLOR_INDICES) 799 0 = (255, 255, 0)
    ∧ decodePixel (create_calibration_bmp WIDTH HEIGHT COLOR_INDICES) 0 479 = (255, 0, 0)
    ∧ decodePixel (create_calibration_bmp WIDTH HEIGHT COLOR_INDICES) 799 479 = (0, 255, 0) := by
  decide

/-- C2 counterexample: pixel (266, 240) lies in cell 4, whose color is
`PALETTE[5]` = blue = (R, G, B) = (0, 0, 255). The buffer handed to the
payload-emission step stores 255 (the Blue channel) at that pixel's byte
offset 0 and 0 (the Red channel) at byte offset 2 — i.e. it already holds
(B, G, R), not (R, G, B) — and the emission step copies the pixel's byte 0
to the file row's byte 0 verbatim, performing no channel reordering. This
refutes the claim that the buffer holds (R, G, B) and that the B,G,R
reversal happens in the Writer's row-emission step. -/
theorem C2_counterexample :
    PALETTE.getD (COLOR_INDICES.getD 4 0) (0, 0, 0) = (0, 0, 255)
    ∧ inCell (cellOf WIDTH HEIGHT 4) 266 240 = true
    ∧ temp_buffer WIDTH HEIGHT COLOR_INDICES ((240 * WIDTH + 266) * 3) = 255
    ∧ temp_buffer WIDTH HEIGHT COLOR_INDICES ((240 * WIDTH + 266) * 3 + 2) = 0
    ∧ pixels WIDTH HEIGHT COLOR_INDICES
        ((HEIGHT - 1 - 240) * padded_row_size WIDTH + 266 * 3)
      = temp_buffer WIDTH HEIGHT COLOR_INDICES ((240 * WIDTH + 266) * 3) := by
  decide

/-- C3 counterexample: run with an empty color sequence. No error is
raised anywhere: the fill loop body never executes, and a complete,
well-formed file of the usual 1,152,054 bytes is still produced (valid
signature byte, header size field, all pixels decode to zero/black) — the
encoder does not fail with an InvalidInput error, and the buffer is
allocated and fully written out. -/
theorem C3_counterexample :
    (create_calibration_bmp WIDTH HEIGHT []).size = 1152054
    ∧ (create_calibration_bmp WIDTH HEIGHT []).byte 0 = 66
    ∧ readU32 (create_calibration_bmp WIDTH HEIGHT []) 2 = 1152054
    ∧ decodePixel (create_calibration_bmp WIDTH HEIGHT []) 0 0 = (0, 0, 0)
    ∧ decodePixel (create_calibration_bmp WIDTH HEIGHT []) 799 479 = (0, 0, 0) := by
  decide

/-- C3 amended: the code performs no validation of the color sequence.
With an empty sequence the encoder does not fail: the pixel buffer stays
zero-initialized at every byte offset, and a complete file of the normal
size `54 + pixel_data_size` is still written. -/
theorem C3_empty_sequence_writes_black_file (W H i : Nat) :
    temp_buffer W H [] i = 0
    ∧ (create_calibration_bmp W H []).size = 54 + pixel_data_size W H :=
  ⟨rfl, rfl⟩

/-- C5: the reserved palette index 4 is present in the palette mapping
(the palette has 7 entries and entry 4 holds a color triple), yet every
rendered cell's color index comes from the allow-list `COLOR_INDICES`,
none of which is the reserved index 4 and all of which are valid palette
indices. -/
theorem C5_reserved_index_never_selected :
    4 < PALETTE.length
    ∧ PALETTE.getD 4 (1, 1, 1) = (0, 0, 0)
    ∧ (COLOR_INDICES.all fun i => decide (i ≠ 4) && decide (i < PALETTE.length)) = true := by
  decide

/-- C9: for every invocation (any canvas size, any color sequence), the
first two bytes of the produced file are 66 and 77 — the ASCII codes of
'B' and 'M' (0x42, 0x4D). -/
theorem C9_magic_signature (W H : Nat) (ci : List Nat) :
    (create_calibration_bmp W H ci).byte 0 = 66
    ∧ (create_calibration_bmp W H ci).byte 1 = 77 :=
  ⟨rfl, rfl⟩

/-- C10: with no command-line argument (argv holds only the program name)
the output path defaults to "calibration.bmp"; with an argument, that
exact argument is the output path. -/
theorem C10_output_path_default :
    (∀ prog : String, output_file [prog] = "calibration.bmp")
    ∧ ∀ (prog arg : String) (rest : List String),
        output_file (prog :: arg :: rest) = arg := by
  refine ⟨fun prog => rfl, fun prog arg rest => ?_⟩
  simp [output_file]

theorem pixels_row_copy (W H : Nat) (ci : List Nat) (hW : 0 < W) (y off : Nat)
    (hy : y < H) (hoff : off < row_size W) :
    pixels W H ci ((H - 1 - y) * padded_row_size W + off)
      = temp_buffer W H ci (y * (W * 3) + off) := by
  have hP : 0 < padded_row_size W := by
    unfold padded_row_size row_size at *
    omega
  have hoffP : off < padded_row_size W := by
    unfold padded_row_size at *
    omega
  have hdiv : ((H - 1 - y) * padded_row_size W + off) / padded_row_size W = H - 1 - y := by
    rw [Nat.mul_comm, Nat.mul_add_div hP, Nat.div_eq_of_lt hoffP, Nat.add_zero]
  have hmod : ((H - 1 - y) * padded_row_size W + off) % padded_row_size W = off := by
    rw [Nat.add_comm, Nat.add_mul_mod_self_right, Nat.mod_eq_of_lt hoffP]
  have hlt : (H - 1 - y) * padded_row_size W + off < pixel_data_size W H := by
    unfold pixel_data_size
    have h1 : (H - 1 - y) * padded_row_size W ≤ (H - 1) * padded_row_size W :=
      Nat.mul_le_mul_right _ (Nat.sub_le _ _)
    have h2 : (H - 1) * padded_row_size W + padded_row_size W = padded_row_size W * H := by
      rw [← Nat.succ_mul, Nat.mul_comm]
      congr 1
      omega
    omega
  unfold pixels
  rw [if_pos hlt, hmod, if_pos hoff, hdiv]
  congr 1
  have hyy : H - 1 - (H - 1 - y) = y := by omega
  rw [hyy]

/-- C8: for every logical row `y` of the top-down Pixel Buffer, every byte
of that row's pixel data (pixel `x`, channel `ch`) appears in the payload
at file-row index `H - 1 - y`, each file row occupying `padded_row_size`
bytes: payload byte `(H-1-y) * padded_row_size + x*3 + ch` equals
`temp_buffer` byte `(y*W + x)*3 + ch`. -/
theorem C8_vertical_inversion (W H : Nat) (ci : List Nat) (hW : 0 < W)
    (x y ch : Nat) (hy : y < H) (hx : x < W) (hch : ch < 3) :
    pixels W H ci ((H - 1 - y) * padded_row_size W + (x * 3 + ch))
      = temp_buffer W H ci ((y * W + x) * 3 + ch) := by
  have hoff : x * 3 + ch < row_size W := by
    unfold row_size
    omega
  have h := pixels_row_copy W H ci hW y (x * 3 + ch) hy hoff
  have harg : y * (W * 3) + (x * 3 + ch) = (y * W + x) * 3 + ch := by ring
  rw [harg] at h
  exact h

theorem C8_vertical_inversion_witness :
    0 < WIDTH
    ∧ pixels WIDTH HEIGHT COLOR_INDICES
        ((HEIGHT - 1 - 0) * padded_row_size WIDTH + (0 * 3 + 0))
      = temp_buffer WIDTH HEIGHT COLOR_INDICES ((0 * WIDTH + 0) * 3 + 0) :=
  ⟨by decide, C8_vertical_inversion WIDTH HEIGHT COLOR_INDICES (by decide) 0 0 0
    (by decide) (by decide) (by decide)⟩

/-- C2 amended: the (R,G,B) to (B,G,R) reversal happens in the
compositor's fill step, not in the Writer's row emission. For any box fill
with palette triple `rgb = (R, G, B)` and any pixel `(x, y)` inside the
box, the buffer bytes written at channel offsets 0, 1, 2 are B, G, R
respectively (so the buffer handed to payload emission already holds
(B,G,R) triples); and the Writer's row-emission step copies each channel
byte verbatim from the buffer into the payload, with no reordering. -/
theorem C2_reorder_happens_in_fill (W H : Nat) (ci : List Nat) (hW : 0 < W)
    (c : Cell) (rgb : Nat × Nat × Nat) (buf : Nat → Nat) (x y : Nat)
    (hx : x < W) (hy : y < H) (ch : Nat) (hch : ch < 3)
    (hin : inCell c x y = true) :
    (fillBox W c rgb buf ((y * W + x) * 3) = rgb.2.2
      ∧ fillBox W c rgb buf ((y * W + x) * 3 + 1) = rgb.2.1
      ∧ fillBox W c rgb buf ((y * W + x) * 3 + 2) = rgb.1)
    ∧ pixels W H ci ((H - 1 - y) * padded_row_size W + (x * 3 + ch))
        = temp_buffer W H ci ((y * W + x) * 3 + ch) := by
  have hxW : (y * W + x) % W = x := by
    rw [Nat.add_comm, Nat.mul_comm, Nat.add_mul_mod_self_left, Nat.mod_eq_of_lt hx]
  have hyW : (y * W + x) / W = y := by
    rw [Nat.mul_comm, Nat.mul_add_div hW, Nat.div_eq_of_lt hx, Nat.add_zero]
  have hgen : ∀ k, k < 3 → fillBox W c rgb buf ((y * W + x) * 3 + k)
      = if k = 0 then rgb.2.2 else if k = 1 then rgb.2.1 else rgb.1 := by
    intro k hk
    have h1 : ((y * W + x) * 3 + k) / 3 = y * W + x := by
      rw [Nat.mul_comm (y * W + x) 3, Nat.mul_add_div (by norm_num),
        Nat.div_eq_of_lt hk, Nat.add_zero]
    have h2 : ((y * W + x) * 3 + k) % 3 = k := by
      rw [Nat.add_comm, Nat.add_mul_mod_self_right, Nat.mod_eq_of_lt hk]
    simp only [fillBox]
    rw [h1, h2, hxW, hyW, hin]
    simp
  refine ⟨⟨?_, ?_, ?_⟩, ?_⟩
  · simpa using hgen 0 (by norm_num)
  · simpa using hgen 1 (by norm_num)
  · simpa using hgen 2 (by norm_num)
  · have hoff : x * 3 + ch < row_size W := by
      unfold row_size
      omega
    have h := pixels_row_copy W H ci hW y (x * 3 + ch) hy hoff
    have harg : y * (W * 3) + (x * 3 + ch) = (y * W + x) * 3 + ch := by ring
    rw [harg] at h
    exact h

theorem C2_reorder_happens_in_fill_witness :
    inCell (cellOf WIDTH HEIGHT 4) 266 240 = true
    ∧ ((fillBox WIDTH (cellOf WIDTH HEIGHT 4) (0, 0, 255) (fun _ => 0)
          ((240 * WIDTH + 266) * 3) = 255
        ∧ fillBox WIDTH (cellOf WIDTH HEIGHT 4) (0, 0, 255) (fun _ => 0)
          ((240 * WIDTH + 266) * 3 + 1) = 0
        ∧ fillBox WIDTH (cellOf WIDTH HEIGHT 4) (0, 0, 255) (fun _ => 0)
          ((240 * WIDTH + 266) * 3 + 2) = 0)
      ∧ pixels WIDTH HEIGHT COLOR_INDICES
          ((HEIGHT - 1 - 240) * padded_row_size WIDTH + (266 * 3 + 0))
        = temp_buffer WIDTH HEIGHT COLOR_INDICES ((240 * WIDTH + 266) * 3 + 0)) :=
  ⟨by decide, C2_reorder_happens_in_fill WIDTH HEIGHT COLOR_INDICES (by decide)
    (cellOf WIDTH HEIGHT 4) (0, 0, 255) (fun _ => 0) 266 240 (by decide) (by decide)
    0 (by decide) (by decide)⟩

/-- C6: for every width, height and color sequence such that the file size
fits the 4-byte field, the file-size field at offset 2 decodes to
`54 + padded_row_size * height`, this equals the total number of bytes of
the produced file, and the payload-offset field at offset 10 decodes
to 54. -/
theorem C6_declared_size (W H : Nat) (ci : List Nat)
    (hfit : file_size W H < 4294967296) :
    readU32 (create_calibration_bmp W H ci) 2 = 54 + padded_row_size W * H
    ∧ readU32 (create_calibration_bmp W H ci) 2 = (create_calibration_bmp W H ci).size
    ∧ readU32 (create_calibration_bmp W H ci) 10 = 54 := by
  have b2 : (create_calibration_bmp W H ci).byte 2 = file_size W H % 256 := rfl
  have b3 : (create_calibration_bmp W H ci).byte 3 = file_size W H / 256 % 256 := rfl
  have b4 : (create_calibration_bmp W H ci).byte 4 = file_size W H / 65536 % 256 := rfl
  have b5 : (create_calibration_bmp W H ci).byte 5 = file_size W H / 16777216 % 256 := rfl
  have b10 : (create_calibration_bmp W H ci).byte 10 = 54 := rfl
  have b11 : (create_calibration_bmp W H ci).byte 11 = 0 := rfl
  have b12 : (create_calibration_bmp W H ci).byte 12 = 0 := rfl
  have b13 : (create_calibration_bmp W H ci).byte 13 = 0 := rfl
  have hval : readU32 (create_calibration_bmp W H ci) 2 = file_size W H := by
    show (create_calibration_bmp W H ci).byte 2
        + 256 * (create_calibration_bmp W H ci).byte 3
        + 65536 * (create_calibration_bmp W H ci).byte 4
        + 16777216 * (create_calibration_bmp W H ci).byte 5 = file_size W H
    rw [b2, b3, b4, b5]
    omega
  have hfs : file_size W H = 54 + padded_row_size W * H := by
    unfold file_size pixel_data_size
    ring
  refine ⟨by rw [hval, hfs], ?_, ?_⟩
  · rw [hval, hfs, create_size_eq]
    unfold pixel_data_size
    ring
  · show (create_calibration_bmp W H ci).byte 10
        + 256 * (create_calibration_bmp W H ci).byte 11
        + 65536 * (create_calibration_bmp W H ci).byte 12
        + 16777216 * (create_calibration_bmp W H ci).byte 13 = 54
    rw [b10, b11, b12, b13]

theorem C6_declared_size_witness :
    file_size WIDTH HEIGHT < 4294967296
    ∧ readU32 (create_calibration_bmp WIDTH HEIGHT COLOR_INDICES) 2
        = 54 + padded_row_size WIDTH * HEIGHT :=
  ⟨by decide, (C6_declared_size WIDTH HEIGHT COLOR_INDICES (by decide)).1⟩

/-- C7: for every width, the per-row padding `(4 - (width*3 mod 4)) mod 4`
is below 4 and rounds the row byte count up to a multiple of 4; and for
any width with `width*3 mod 4` nonzero (such as 79), the padding is
nonzero and the file size counts the padded row size for every row. -/
theorem C7_row_padding (W H : Nat) :
    padding_bytes W < 4
    ∧ (W * 3 + padding_bytes W) % 4 = 0
    ∧ (W * 3 % 4 ≠ 0 →
        padding_bytes W ≠ 0
        ∧ padded_row_size W = W * 3 + padding_bytes W
        ∧ file_size W H = 54 + (W * 3 + padding_bytes W) * H) := by
  refine ⟨?_, ?_, fun hmod => ⟨?_, ?_, ?_⟩⟩
  · unfold padding_bytes row_size
    omega
  · unfold padding_bytes row_size
    omega
  · unfold padding_bytes row_size
    omega
  · unfold padded_row_size row_size
    rfl
  · unfold file_size pixel_data_size padded_row_size row_size
    ring

theorem C7_row_padding_witness :
    79 * 3 % 4 ≠ 0 ∧ padding_bytes 79 ≠ 0 :=
  ⟨by decide, ((C7_row_padding 79 1).2.2 (by decide)).1⟩

/-- C4: every pixel `(x, y)` of the 800x480 canvas lies in the bounds of
exactly one of the six cells, so the compositor's fill loop writes each
pixel exactly once (`writeCount`, the number of fill iterations whose cell
contains the pixel, is 1); and conversely every pixel inside any cell's
bounds lies on the canvas, so the union of the cell bounds is exactly the
canvas. -/
theorem C4_exactly_one_cell (x y : Nat) (hx : x < WIDTH) (hy : y < HEIGHT) :
    writeCount WIDTH HEIGHT COLOR_INDICES.length x y = 1
    ∧ ∀ u v idx, idx < COLOR_INDICES.length →
        inCell (cellOf WIDTH HEIGHT idx) u v = true → u < WIDTH ∧ v < HEIGHT := by
  have hxx : x < 800 := hx
  have hyy : y < 480 := hy
  constructor
  · have hr : List.range COLOR_INDICES.length = [0, 1, 2, 3, 4, 5] := rfl
    unfold writeCount
    rw [hr]
    simp [List.countP_cons, List.countP_nil, inCell, cellOf, box_width, box_height,
      WIDTH, HEIGHT]
    split_ifs <;> omega
  · intro u v idx hidx hin
    have hidx6 : idx < 6 := hidx
    interval_cases idx <;>
      simp [inCell, cellOf, box_width, box_height, WIDTH, HEIGHT] at hin ⊢ <;>
      omega

theorem C4_exactly_one_cell_witness :
    0 < WIDTH ∧ 0 < HEIGHT
    ∧ writeCount WIDTH HEIGHT COLOR_INDICES.length 0 0 = 1 :=
  ⟨by decide, by decide, (C4_exactly_one_cell 0 0 (by decide) (by decide)).1⟩

end CalibrationBmp
